import Mathlib

/-
Verification of the large-file transfer pipeline of `src/bot.py`.

The Python source is shallowly embedded below: the pure computations
(chunk planning, part naming, header parsing, the progress throttle) become
Lean functions on `Nat`/`String`, and the stateful per-part loop of
`handle_message` (temporary-file lifecycle, upload accounting, abort on the
first escaping exception) becomes an explicit state-passing interpreter over
the externally supplied outcomes of the network calls.
-/

namespace Bot

/-- MAX_FILE_SIZE constant of bot.py (line 28): 4 GiB in bytes. -/
def MAX_FILE_SIZE : Nat := 4 * 1024 * 1024 * 1024

/-- STATUS_INTERVAL constant of bot.py (line 31): 5 seconds. -/
def STATUS_INTERVAL : Nat := 5

/-- Modelled from the spec: `partCount = ceil(totalSize / maxPartSize)`, the
exact integer ceiling of the spec's chunk-planner contract.  The code's own
computation at line 104 goes through float true-division and is embedded
separately as `pyCeilDiv`; the two agree while the quotient stays within
double precision but `pyCeilDiv` falls below this exact value for sizes
beyond 2^53. -/
def specPartCount (fileSize maxPartSize : Nat) : Nat :=
  (fileSize + maxPartSize - 1) / maxPartSize

/-- Start of a part's byte range, `start_byte = part * MAX_FILE_SIZE` (line 124). -/
def startByte (maxPartSize part : Nat) : Nat := part * maxPartSize

/-- Inclusive end of a part's byte range,
`end_byte = min((part + 1) * MAX_FILE_SIZE - 1, file_size - 1)` (line 125). -/
def endByte (maxPartSize fileSize part : Nat) : Nat :=
  min ((part + 1) * maxPartSize - 1) (fileSize - 1)

/-- Length of a part, `part_size = end_byte - start_byte + 1` (line 126). -/
def partSizeBytes (maxPartSize fileSize part : Nat) : Nat :=
  endByte maxPartSize fileSize part - startByte maxPartSize part + 1

/-- Status emissions of one progress phase.  Both `download_progress`
(lines 140-170) and `upload_progress` (lines 205-235) keep a last-update
variable (initialized to 0 at lines 140 and 205) and emit only when
`time.time() - last_update > STATUS_INTERVAL`, setting the variable to the
current time on emission.  Given the initial variable value and the
wall-clock timestamps (in seconds) of the successive progress callbacks,
this returns the timestamps at which a status message is emitted. -/
def emissions : Nat → List Nat → List Nat
  | _, [] => []
  | last, t :: ts =>
    if STATUS_INTERVAL < t - last then t :: emissions t ts else emissions last ts

/-- Decimal digit characters of `n`, most significant first (the digits of
Python `str(n)` for a natural number). -/
def natDigits (n : Nat) : List Char :=
  if n < 10 then [Char.ofNat (48 + n)]
  else natDigits (n / 10) ++ [Char.ofNat (48 + n % 10)]
  termination_by n
  decreasing_by exact Nat.div_lt_self (by omega) (by omega)

/-- Python formatting with the 03d spec used at line 132: the decimal digits
zero-padded on the left to a width of at least 3. -/
def pyFormat03d (n : Nat) : String :=
  String.mk (List.replicate (3 - (natDigits n).length) '0' ++ natDigits n)

/-- Destination file name of one part (lines 131-135): the original name when
there is a single part, `name.partNNN` (1-based, 03d-formatted) otherwise. -/
def partFileName (fileName : String) (parts part : Nat) : String :=
  if 1 < parts then fileName ++ ".part" ++ pyFormat03d (part + 1) else fileName

/-- Caption passed to send_document (line 242): set only when `parts > 1`. -/
def partCaption (parts part : Nat) : Option String :=
  if 1 < parts then some ("Part " ++ toString (part + 1) ++ " of " ++ toString parts)
  else none

/-- Python `int()` applied to a header value (line 83): a nonempty string of
decimal digits parses to its value; any other string raises ValueError,
modelled as `none`. -/
def pyIntNat (s : String) : Option Nat :=
  if s.toList ≠ [] ∧ s.toList.all Char.isDigit then
    some (s.toList.foldl (fun acc c => acc * 10 + (c.toNat - 48)) 0)
  else none

/-- Size obtained by the probe,
`file_size = int(head.headers.get('content-length', 0))` (line 83): an absent
header defaults to 0, a present header goes through `int()`, whose failure is
an exception. -/
def probeSize (contentLength : Option String) : Except String Nat :=
  match contentLength with
  | none => Except.ok 0
  | some s =>
    match pyIntNat s with
    | some n => Except.ok n
    | none => Except.error "invalid literal for int with base 10"

/-- How handle_message proceeds right after the probe: a zero size returns with
the size-failure message before any part is planned (lines 89-95), an exception
from `int()` lands in the generic handler (lines 280-286), and only a positive
size reaches the chunk planning at line 104. -/
inductive ProbeStep where
  | abortZeroSize : ProbeStep
  | abortException : ProbeStep
  | planned : Nat → ProbeStep
deriving DecidableEq

/-- Dispatch on the probe result (lines 82-104). -/
def afterProbe (contentLength : Option String) : ProbeStep :=
  match probeSize contentLength with
  | Except.error _ => ProbeStep.abortException
  | Except.ok n => if n = 0 then ProbeStep.abortZeroSize else ProbeStep.planned n

/-- Embedding of `send_progress_message` (lines 51-67).  When a message id is
given it first tries `edit_message_text`, whose exception is caught and logged;
it then falls back to `reply_text`, which is not guarded, so a failure of the
send propagates to the caller.  `editOk` is whether the edit call succeeds and
`replyResult` is the id of the message created by `reply_text` (`none` when
that call raises). -/
def sendProgressMessage (editMessageId : Option Nat) (editOk : Bool)
    (replyResult : Option Nat) : Except String Nat :=
  match editMessageId with
  | some mid =>
    if editOk then Except.ok mid
    else
      match replyResult with
      | some newId => Except.ok newId
      | none => Except.error "reply failed"
  | none =>
    match replyResult with
    | some newId => Except.ok newId
    | none => Except.error "reply failed"

/-- True when the call returned a message id rather than raising. -/
def returnsOk (r : Except String Nat) : Bool :=
  match r with
  | Except.ok _ => true
  | Except.error _ => false

/-- Externally determined outcomes of one part of the per-part loop.
`expected` is the planned `part_size` (line 126); `downloadChunks` is
`some cs` when the ranged GET streams to completion delivering chunks of the
given sizes (lines 181-186), and `none` when the request or the stream raises
mid-download; `uploadOk` is whether `send_document` (lines 239-247) succeeds,
examined only if the download completed. -/
structure PartSpec where
  expected : Nat
  downloadChunks : Option (List Nat)
  uploadOk : Bool
deriving DecidableEq

/-- Bytes written to the temporary file by the download loop (lines 183-186):
every nonempty chunk is written in full. -/
def downloadedBytes (chunks : List Nat) : Nat :=
  (chunks.filter fun c => c ≠ 0).sum

/-- State threaded through the per-part loop of handle_message
(lines 123-267).  `tempVar` is the function-scoped `temp_file_path` variable
(`none` before its first assignment at line 188, and keeping its stale value
across iterations otherwise); `live` are the temporary files currently on
disk, identified by their part index; `unlinked` records every path passed to
`os.unlink` (line 265) in order, and `deleted` those attempts that actually
removed a file; `uploads` records each successful `send_document` call as
(part index, bytes sent); `aborted` is set when an exception escapes a part,
reaching the generic handler that reports failure (lines 280-286). -/
structure TState where
  tempVar : Option Nat
  live : List Nat
  unlinked : List Nat
  deleted : List Nat
  uploads : List (Nat × Nat)
  uploadAttempts : Nat
  aborted : Bool
deriving DecidableEq

/-- State at entry of the per-part loop. -/
def initState : TState :=
  { tempVar := none, live := [], unlinked := [], deleted := [], uploads := [],
    uploadAttempts := 0, aborted := false }

/-- The cleanup clause (lines 262-267): `os.unlink(temp_file_path)` guarded by
a try/except that swallows any exception — a NameError when the variable was
never assigned (`none`) or a FileNotFoundError when the path was already
removed. -/
def unlinkTemp (path : Option Nat) (s : TState) : TState :=
  match path with
  | none => s
  | some q =>
    if q ∈ s.live then
      { s with
        unlinked := s.unlinked ++ [q]
        deleted := s.deleted ++ [q]
        live := s.live.erase q }
    else
      { s with unlinked := s.unlinked ++ [q] }

/-- One iteration of the per-part loop (lines 172-267): create the temporary
file (`NamedTemporaryFile(delete=False)`, line 172), run the download inside
try/finally; only after the stream completes is `temp_file_path` assigned
(line 188) and `send_document` called; the finally clause unlinks whatever
`temp_file_path` currently holds. -/
def runPart (p : Nat) (spec : PartSpec) (s : TState) : TState :=
  let s1 : TState := { s with live := s.live ++ [p] }
  match spec.downloadChunks with
  | none => unlinkTemp s1.tempVar { s1 with aborted := true }
  | some chunks =>
    let s2 : TState :=
      { s1 with tempVar := some p, uploadAttempts := s1.uploadAttempts + 1 }
    if spec.uploadOk then
      unlinkTemp (some p)
        { s2 with uploads := s2.uploads ++ [(p, downloadedBytes chunks)] }
    else
      unlinkTemp (some p) { s2 with aborted := true }

/-- The `for part in range(parts)` loop (line 123): strictly sequential; the
first exception that escapes a part aborts the remaining parts. -/
def runParts : Nat → List PartSpec → TState → TState
  | _, [], s => s
  | p, spec :: rest, s =>
    let s2 := runPart p spec s
    if s2.aborted then s2 else runParts (p + 1) rest s2

/-- A whole transfer: run every planned part starting from index 0. -/
def runTransfer (plan : List PartSpec) : TState :=
  runParts 0 plan initState

/-- The `download_start_time` variable (line 139) is reassigned at the start
of every part's download; this is its value once the loop has finished. -/
def finalDownloadStartTime : List Nat → Option Nat
  | [] => none
  | [t] => some t
  | _ :: t :: ts => finalDownloadStartTime (t :: ts)

/-- The summary's `total_time = time.time() - download_start_time`, computed
after the loop (line 270), given the per-part download start timestamps and
the completion timestamp. -/
def summaryTotalTime (partStarts : List Nat) (endTime : Nat) : Option Nat :=
  (finalDownloadStartTime partStarts).map fun t => endTime - t

/-- Modelled from the spec: the total elapsed wall time of the whole transfer,
all parts included, measured from the first part's download start. -/
def wholeTransferElapsed (partStarts : List Nat) (endTime : Nat) : Option Nat :=
  partStarts.head?.map fun t => endTime - t

/-- Fueled floor of the base-2 logarithm (structural recursion so the kernel
can evaluate it). -/
def log2fuel : Nat → Nat → Nat
  | 0, _ => 0
  | fuel + 1, n => if n < 2 then 0 else log2fuel fuel (n / 2) + 1

/-- Floor of log2 n for n ≥ 1. -/
def natLog2 (n : Nat) : Nat := log2fuel n n

/-- Round a / b (with b > 0) to the nearest integer, ties to even: the
rounding of IEEE-754 binary64 arithmetic. -/
def rne (a b : Nat) : Nat :=
  let q := a / b
  let r := a % b
  if 2 * r < b then q
  else if b < 2 * r then q + 1
  else if q % 2 = 0 then q else q + 1

/-- Decide m * 2^n ≤ T for an integer exponent n. -/
def mulPow2Le (m : Nat) (n : Int) (T : Nat) : Bool :=
  if 0 ≤ n then m * 2 ^ n.toNat ≤ T else m ≤ T * 2 ^ (-n).toNat

/-- The unique integer n with m * 2^n ≤ T < m * 2^(n + 1), i.e. the floor of
log2(T / m), for T, m ≥ 1: computed from the logarithms of T and m and
adjusted by direct comparison. -/
def qlog2 (T m : Nat) : Int :=
  let c : Int := (natLog2 T : Int) - (natLog2 m : Int)
  if mulPow2Le m (c + 1) T then c + 1
  else if mulPow2Le m c T then c
  else c - 1

/-- Python's float true-division T / m of two integers as CPython computes
it: the exact rational quotient correctly rounded to 53 significant bits,
nearest, ties to even.  Returned as the exact dyadic value (s, k) standing
for s / 2^k with 2^52 ≤ s ≤ 2^53.  The binary64 exponent is left unbounded
(no overflow or subnormal clamping), which coincides with binary64 for every
quotient in the normal range, in particular every input considered here. -/
def floatDiv (T m : Nat) : Nat × Int :=
  let n := qlog2 T m
  let k : Int := 52 - n
  let s := if 0 ≤ k then rne (T * 2 ^ k.toNat) m else rne T (m * 2 ^ (-k).toNat)
  (s, k)

/-- math.ceil applied to the dyadic value s / 2^k. -/
def dyadicCeil (p : Nat × Int) : Nat :=
  if 0 ≤ p.2 then (p.1 + 2 ^ p.2.toNat - 1) / 2 ^ p.2.toNat
  else p.1 * 2 ^ (-p.2).toNat

/-- The part count as the code actually computes it:
`parts = math.ceil(file_size / MAX_FILE_SIZE)` (line 104) with Python's float
true-division, generalized over the part-size limit. -/
def pyCeilDiv (T m : Nat) : Nat := dyadicCeil (floatDiv T m)

/-- Reference fact about the spec-side planner: for `totalSize ≥ 1` and
`maxPartSize ≥ 1` the exact-ceiling part count yields a plan whose part 0
starts at byte 0, whose last part ends at byte `totalSize - 1`, whose part i
covers `[i * maxPartSize, min((i + 1) * maxPartSize - 1, totalSize - 1)]`
with a nonempty range, with consecutive parts contiguous and distinct parts
non-overlapping.  This is the contract the code's float-based part count
breaks beyond 2^53. -/
theorem specPlanner_correct (T m : Nat) (hT : 1 ≤ T) (hm : 1 ≤ m) :
    (specPartCount T m : ℤ) = ⌈(T : ℚ) / (m : ℚ)⌉ ∧
    startByte m 0 = 0 ∧
    endByte m T (specPartCount T m - 1) = T - 1 ∧
    (∀ i, i < specPartCount T m →
      startByte m i = i * m ∧
      endByte m T i = min ((i + 1) * m - 1) (T - 1) ∧
      startByte m i ≤ endByte m T i) ∧
    (∀ i, i + 1 < specPartCount T m → endByte m T i + 1 = startByte m (i + 1)) ∧
    (∀ i j, i < j → j < specPartCount T m → endByte m T i < startByte m j) := by
  have hm0 : 0 < m := hm
  have key : ∀ i : Nat, i < specPartCount T m ↔ i * m < T := by
    intro i
    unfold specPartCount
    rw [Nat.lt_iff_add_one_le, Nat.le_div_iff_mul_le hm0, add_one_mul]
    omega
  have hn1 : 1 ≤ specPartCount T m := by
    have h0 := (key 0).mpr (by omega)
    omega
  have hTle : T ≤ specPartCount T m * m := by
    by_contra hcon
    push_neg at hcon
    have := (key (specPartCount T m)).mpr hcon
    omega
  have hlast : (specPartCount T m - 1) * m < T := (key (specPartCount T m - 1)).mp (by omega)
  refine ⟨?_, ?_, ?_, ?_, ?_, ?_⟩
  · have hmq : (0 : ℚ) < (m : ℚ) := by exact_mod_cast hm0
    rw [eq_comm, Int.ceil_eq_iff]
    refine ⟨?_, ?_⟩
    · rw [lt_div_iff₀ hmq]
      have h2 : ((specPartCount T m - 1 : ℕ) : ℚ) * (m : ℚ) < (T : ℚ) := by
        exact_mod_cast hlast
      have hcast : ((specPartCount T m : ℤ) : ℚ) - 1 = ((specPartCount T m - 1 : ℕ) : ℚ) := by
        push_cast [Nat.cast_sub hn1]
        ring
      rw [hcast]
      exact h2
    · rw [div_le_iff₀ hmq]
      exact_mod_cast hTle
  · simp [startByte]
  · have hx : specPartCount T m - 1 + 1 = specPartCount T m := by omega
    unfold endByte
    rw [hx]
    omega
  · intro i hi
    have hiT : i * m < T := (key i).mp hi
    have e1 : (i + 1) * m = i * m + m := by ring
    refine ⟨rfl, rfl, ?_⟩
    show i * m ≤ min ((i + 1) * m - 1) (T - 1)
    omega
  · intro i hi
    have hiT : (i + 1) * m < T := (key (i + 1)).mp hi
    have e1 : (i + 1) * m = i * m + m := by ring
    show min ((i + 1) * m - 1) (T - 1) + 1 = (i + 1) * m
    omega
  · intro i j hij hj
    have e1 : (i + 1) * m = i * m + m := by ring
    have hle : (i + 1) * m ≤ j * m := Nat.mul_le_mul (by omega) (Nat.le_refl m)
    show min ((i + 1) * m - 1) (T - 1) < j * m
    omega

/-- Sanity of the float model against Python: on quotients within double
precision the float-based ceiling agrees with the exact one, on exactly
representable halves it rounds up as `math.ceil` does, and the tie at
(10^16 + 1) / 1 rounds to the even neighbor 10^16 exactly as CPython's
correctly rounded int true-division does. -/
theorem pyCeilDiv_small_agreement :
    pyCeilDiv 5 2 = 3 ∧
    pyCeilDiv 4 2 = 2 ∧
    pyCeilDiv 1 3 = 1 ∧
    pyCeilDiv (2 ^ 33 + 5) (2 ^ 32) = 3 ∧
    pyCeilDiv (2 ^ 53) (2 ^ 32) = specPartCount (2 ^ 53) (2 ^ 32) ∧
    pyCeilDiv (10 ^ 16 + 1) 1 = 10 ^ 16 := by
  decide

/-- C1: the planner-correctness claim fails on the code at huge sizes.
Failing input: totalSize = 2^53 + 1 bytes with the code's MAX_FILE_SIZE
of 2^32.  Python's float true-division rounds (2^53 + 1) / 2^32
= 2^21 + 2^-32 down to 2^21 — the excess is exactly half an ulp and the tie
goes to the even significand — so line 104's math.ceil yields 2097152 parts
while the exact ceiling of the claim is 2097153; the last planned part then
ends at byte 2^53 - 1 and the final byte totalSize - 1 = 2^53 is never
planned, violating the claimed coverage of [0, totalSize - 1]. -/
theorem C1_float_planner_bug :
    pyCeilDiv (2 ^ 53 + 1) MAX_FILE_SIZE = 2097152 ∧
    specPartCount (2 ^ 53 + 1) MAX_FILE_SIZE = 2097153 ∧
    endByte MAX_FILE_SIZE (2 ^ 53 + 1) (pyCeilDiv (2 ^ 53 + 1) MAX_FILE_SIZE - 1)
      = 2 ^ 53 - 1 ∧
    2 ^ 53 - 1 ≠ (2 ^ 53 + 1) - 1 := by
  decide

/-- C2: the claimed cleanup guarantee fails on the code.  Failing input: a
2-part plan where part index 0 downloads and uploads successfully and part
index 1's download raises mid-stream.  Because `temp_file_path` is only
assigned after a download completes, the finally clause of the failing part
unlinks the stale path of the already-cleaned part 0 (a second touch of a
prior part's temporary object, swallowed as FileNotFoundError) while part 1's
own temporary file is never deleted and stays on disk. -/
theorem C2_cleanup_bug :
    (runTransfer [⟨10, some [10], true⟩, ⟨10, none, true⟩]).live = [1] ∧
    (runTransfer [⟨10, some [10], true⟩, ⟨10, none, true⟩]).deleted = [0] ∧
    (runTransfer [⟨10, some [10], true⟩, ⟨10, none, true⟩]).unlinked = [0, 0] ∧
    (runTransfer [⟨10, some [10], true⟩, ⟨10, none, true⟩]).aborted = true := by
  decide

/-- C4: abort-on-failure.  In any plan whose first part downloads and uploads
successfully and whose second part's download fails, the transfer ends
aborted (the Failed state of the generic handler), with exactly one
successful upload — part 0, which stays recorded, neither rolled back nor
retried — and no further upload attempts; the remaining parts are never
run. -/
theorem C4_abort_on_failure (e1 e2 : Nat) (c1 : List Nat) (u2 : Bool)
    (rest : List PartSpec) :
    (runTransfer (⟨e1, some c1, true⟩ :: ⟨e2, none, u2⟩ :: rest)).aborted = true ∧
    (runTransfer (⟨e1, some c1, true⟩ :: ⟨e2, none, u2⟩ :: rest)).uploads
      = [(0, downloadedBytes c1)] ∧
    (runTransfer (⟨e1, some c1, true⟩ :: ⟨e2, none, u2⟩ :: rest)).uploadAttempts = 1 :=
  ⟨rfl, rfl, rfl⟩

/-- C5: the summary's time accounting is wrong for multi-part transfers.
Failing input: two parts whose downloads start at t = 0 and t = 10, transfer
completing at t = 20.  Because `download_start_time` is reassigned at the
start of every part, the consolidated message reports 10 seconds — the
elapsed time of the last part only — as the total, whereas the whole transfer
took 20 seconds. -/
theorem C5_summary_time_bug :
    summaryTotalTime [0, 10] 20 = some 10 ∧
    wholeTransferElapsed [0, 10] 20 = some 20 ∧
    summaryTotalTime [0, 10] 20 ≠ wholeTransferElapsed [0, 10] 20 := by
  decide

/-- C9 counterexample: a short download is not treated as a fatal error.  The
planned part expects 100 bytes but the stream completes after delivering only
50; the code does not compare the byte count against the expected length, so
the part proceeds to upload its 50 bytes and the transfer is not aborted —
refuting the claim that a short byte count aborts the transfer before
upload. -/
theorem C9_short_download_cex :
    downloadedBytes [50] < 100 ∧
    (runTransfer [⟨100, some [50], true⟩]).uploads = [(0, downloadedBytes [50])] ∧
    (runTransfer [⟨100, some [50], true⟩]).aborted = false := by
  decide

/-- C9 (amended): whenever the ranged download stream completes, the part
proceeds to upload exactly the bytes that were written, with no comparison
against the expected range length: the upload is attempted and the transfer
continues even when the byte count falls short. -/
theorem C9_no_short_download_check (e : Nat) (chunks : List Nat) :
    (runTransfer [⟨e, some chunks, true⟩]).uploads = [(0, downloadedBytes chunks)] ∧
    (runTransfer [⟨e, some chunks, true⟩]).uploadAttempts = 1 ∧
    (runTransfer [⟨e, some chunks, true⟩]).aborted = false :=
  ⟨rfl, rfl, rfl⟩

/-- Every emission of a phase lies strictly more than STATUS_INTERVAL after
the initial value of the last-update variable. -/
theorem emissions_gap (ts : List Nat) :
    ∀ last e, e ∈ emissions last ts → STATUS_INTERVAL < e - last := by
  induction ts with
  | nil =>
    intro last e he
    simp [emissions] at he
  | cons t ts ih =>
    intro last e he
    by_cases h : STATUS_INTERVAL < t - last
    · simp only [emissions] at he
      rw [if_pos h] at he
      rcases List.mem_cons.mp he with rfl | he2
      · exact h
      · have := ih t e he2
        omega
    · simp only [emissions] at he
      rw [if_neg h] at he
      exact ih last e he

/-- The emissions of one phase are pairwise strictly more than STATUS_INTERVAL
apart. -/
theorem emissions_spaced (ts : List Nat) :
    ∀ last, (emissions last ts).Pairwise fun a b => STATUS_INTERVAL < b - a := by
  induction ts with
  | nil =>
    intro last
    simp [emissions]
  | cons t ts ih =>
    intro last
    by_cases h : STATUS_INTERVAL < t - last
    · simp only [emissions]
      rw [if_pos h]
      exact List.Pairwise.cons (fun e he => emissions_gap ts t e he) (ih t)
    · simp only [emissions]
      rw [if_neg h]
      exact ih last

/-- Every emission time is one of the callback times. -/
theorem emissions_mem (ts : List Nat) :
    ∀ last e, e ∈ emissions last ts → e ∈ ts := by
  induction ts with
  | nil =>
    intro last e he
    simp [emissions] at he
  | cons t ts ih =>
    intro last e he
    by_cases h : STATUS_INTERVAL < t - last
    · simp only [emissions] at he
      rw [if_pos h] at he
      rcases List.mem_cons.mp he with rfl | he2
      · exact List.mem_cons_self _ _
      · exact List.mem_cons_of_mem _ (ih t e he2)
    · simp only [emissions] at he
      rw [if_neg h] at he
      exact List.mem_cons_of_mem _ (ih last e he)

/-- C3 counterexample: the claim that every callback arriving at least one
interval after the phase's last emission produces an emission is false at the
boundary.  The first callback at t = 100 emits; the second arrives at t = 105,
exactly STATUS_INTERVAL after that emission, yet the strict comparison
`time.time() - last_update > STATUS_INTERVAL` suppresses it, so the phase's
emissions are [100] only. -/
theorem C3_throttle_cex :
    100 + STATUS_INTERVAL ≤ 105 ∧ emissions 0 [100, 105] = [100] := by
  decide

/-- C3 (amended): within one phase, any two emissions are strictly more than
STATUS_INTERVAL apart (hence never less than the interval apart); every
emission happens at the time of some callback; a burst of callbacks all lying
within one throttle interval yields at most one emission; and a callback
arriving strictly more than STATUS_INTERVAL after the last emission (the
current value of the last-update variable) always emits. -/
theorem C3_throttle_amended (ts : List Nat) :
    (emissions 0 ts).Pairwise (fun a b => STATUS_INTERVAL < b - a) ∧
    (∀ e, e ∈ emissions 0 ts → e ∈ ts) ∧
    (∀ lo, (∀ t, t ∈ ts → lo ≤ t ∧ t ≤ lo + STATUS_INTERVAL) →
      (emissions 0 ts).length ≤ 1) ∧
    (∀ last t rest, STATUS_INTERVAL < t - last →
      emissions last (t :: rest) = t :: emissions t rest) := by
  refine ⟨emissions_spaced ts 0, emissions_mem ts 0, ?_, ?_⟩
  · intro lo hlo
    cases he : emissions 0 ts with
    | nil => simp
    | cons a tl =>
      cases tl with
      | nil => simp
      | cons b tl2 =>
        have hpw := emissions_spaced ts 0
        rw [he] at hpw
        have hab : STATUS_INTERVAL < b - a :=
          (List.pairwise_cons.mp hpw).1 b (List.mem_cons_self _ _)
        have ha : a ∈ ts := emissions_mem ts 0 a (by rw [he]; exact List.mem_cons_self _ _)
        have hb : b ∈ ts :=
          emissions_mem ts 0 b (by rw [he]; exact List.mem_cons_of_mem _ (List.mem_cons_self _ _))
        have h1 := hlo a ha
        have h2 := hlo b hb
        simp only [List.length_cons]
        omega
  · intro last t rest h
    simp only [emissions]
    rw [if_pos h]

/-- Witness for the burst clause of the amended C3: both callbacks of
[100, 102] lie within one interval of 100, and at most one emission occurs. -/
theorem C3_throttle_amended_witness :
    (emissions 0 [100, 102]).length ≤ 1 :=
  (C3_throttle_amended [100, 102]).2.2.1 100 (by decide)

/-- C10: because the last-update variable is initialized to 0 (lines 140 and
205) rather than to the phase's start time, the first progress callback of
each phase — arriving at any wall-clock time t exceeding STATUS_INTERVAL, as
every Unix-epoch timestamp does — emits immediately, however little time has
elapsed since the phase began; by contrast, had the variable started at the
callback's own time, the first callback would not emit. -/
theorem C10_first_callback_emits (t : Nat) (rest : List Nat)
    (ht : STATUS_INTERVAL < t) :
    emissions 0 (t :: rest) = t :: emissions t rest ∧
    emissions t (t :: rest) = emissions t rest := by
  constructor
  · simp only [emissions]
    rw [if_pos (show STATUS_INTERVAL < t - 0 by omega)]
  · simp only [emissions]
    rw [if_neg (show ¬ STATUS_INTERVAL < t - t by omega)]

/-- Witness for C10 at the epoch timestamp 1700000000. -/
theorem C10_first_callback_emits_witness :
    STATUS_INTERVAL < 1700000000 ∧
    (emissions 0 [1700000000] = [1700000000] ∧
      emissions 1700000000 [1700000000] = []) :=
  ⟨by decide, C10_first_callback_emits 1700000000 [] (by decide)⟩

/-- A natural number has at least one decimal digit. -/
theorem natDigits_length_pos (n : Nat) : 1 ≤ (natDigits n).length := by
  unfold natDigits
  split <;> simp

/-- A number below 10 has exactly one decimal digit. -/
theorem natDigits_length_of_lt_ten (n : Nat) (h : n < 10) :
    (natDigits n).length = 1 := by
  unfold natDigits
  rw [if_pos h]
  rfl

/-- A number below 100 has at most two decimal digits. -/
theorem natDigits_length_le_two (n : Nat) (h : n < 100) :
    (natDigits n).length ≤ 2 := by
  by_cases h10 : n < 10
  · rw [natDigits_length_of_lt_ten n h10]
    omega
  · unfold natDigits
    rw [if_neg h10, List.length_append]
    rw [natDigits_length_of_lt_ten (n / 10) (by omega)]
    simp

/-- A number up to 999 has at most three decimal digits. -/
theorem natDigits_length_le_three (n : Nat) (h : n ≤ 999) :
    (natDigits n).length ≤ 3 := by
  by_cases h10 : n < 10
  · rw [natDigits_length_of_lt_ten n h10]
    omega
  · unfold natDigits
    rw [if_neg h10, List.length_append]
    have h2 : (natDigits (n / 10)).length ≤ 2 :=
      natDigits_length_le_two (n / 10) (by omega)
    simp only [List.length_cons, List.length_nil]
    omega

/-- For n up to 999 the 03d formatting produces exactly three characters. -/
theorem pyFormat03d_length (n : Nat) (h : n ≤ 999) :
    (pyFormat03d n).length = 3 := by
  have h1 := natDigits_length_pos n
  have h3 := natDigits_length_le_three n h
  unfold pyFormat03d
  show (List.replicate (3 - (natDigits n).length) '0' ++ natDigits n).length = 3
  rw [List.length_append, List.length_replicate]
  omega

/-- C6: naming policy.  With a single part the destination name is the
original file name and the upload carries no caption; with `k + 2 ≥ 2` parts,
part i's destination name is the original name suffixed with ".part" and the
3-digit zero-padded 1-based index (exactly three digits whenever the index is
at most 999), and a caption is set. -/
theorem C6_naming (name : String) (k part : Nat) (h : part + 1 ≤ 999) :
    partFileName name 1 part = name ∧
    partCaption 1 part = none ∧
    partFileName name (k + 2) part = name ++ ".part" ++ pyFormat03d (part + 1) ∧
    (pyFormat03d (part + 1)).length = 3 ∧
    (partCaption (k + 2) part).isSome = true := by
  refine ⟨?_, ?_, ?_, pyFormat03d_length (part + 1) h, ?_⟩
  · simp [partFileName]
  · simp [partCaption]
  · unfold partFileName
    rw [if_pos (show 1 < k + 2 by omega)]
  · unfold partCaption
    rw [if_pos (show 1 < k + 2 by omega)]
    rfl

/-- Witness for C6 with name "file", two parts, part index 0. -/
theorem C6_naming_witness :
    0 + 1 ≤ 999 ∧
    (partFileName "file" 1 0 = "file" ∧
      partCaption 1 0 = none ∧
      partFileName "file" (0 + 2) 0 = "file" ++ ".part" ++ pyFormat03d (0 + 1) ∧
      (pyFormat03d (0 + 1)).length = 3 ∧
      (partCaption (0 + 2) 0).isSome = true) :=
  ⟨by decide, C6_naming "file" 0 0 (by decide)⟩

/-- C7 counterexample: a failure of the status send is not swallowed.  When
the edit of message 1 fails and the fallback reply_text also fails, the
exception escapes send_progress_message; at the awaited call sites inside
handle_message's try block this aborts the transfer via the generic handler,
refuting the claim that every status edit/send failure is swallowed and the
transfer continues. -/
theorem C7_reporting_cex :
    returnsOk (sendProgressMessage (some 1) false none) = false := by
  decide

/-- C7 (amended): a failure of the status edit alone is logged and swallowed —
the call falls back to sending a brand-new message and returns its id, and the
transfer continues with that new handle; but a failure of the send itself
propagates out of send_progress_message, and at the awaited call sites it
aborts the transfer. -/
theorem C7_reporting_amended (mid newId : Nat) (replyResult : Option Nat)
    (editOk : Bool) :
    sendProgressMessage (some mid) true replyResult = Except.ok mid ∧
    sendProgressMessage (some mid) false (some newId) = Except.ok newId ∧
    sendProgressMessage none editOk (some newId) = Except.ok newId ∧
    returnsOk (sendProgressMessage (some mid) editOk none) = editOk ∧
    returnsOk (sendProgressMessage none editOk none) = false := by
  cases editOk <;> exact ⟨rfl, rfl, rfl, rfl, rfl⟩

/-- C8 counterexample: an unparsable size header does not yield size 0.
With content-length "12x", Python's `int()` raises ValueError, so the probe
produces no size at all and handle_message aborts through the generic
exception handler, not through the zero-size message. -/
theorem C8_probe_cex :
    returnsOk (probeSize (some "12x")) = false ∧
    afterProbe (some "12x") = ProbeStep.abortException := by
  decide

/-- C8 (amended): an absent size header yields size 0 and the transfer aborts
with the immediate size-failure message before any part is planned and before
any temporary storage is touched; a header that `int()` cannot parse instead
raises, aborting the transfer through the generic handler — equally before
planning; only a parsed nonzero size proceeds to planning. -/
theorem C8_probe_amended (s : String) :
    afterProbe none = ProbeStep.abortZeroSize ∧
    (pyIntNat s = none → afterProbe (some s) = ProbeStep.abortException) ∧
    (pyIntNat s = some 0 → afterProbe (some s) = ProbeStep.abortZeroSize) ∧
    (∀ n, pyIntNat s = some (n + 1) → afterProbe (some s) = ProbeStep.planned (n + 1)) := by
  refine ⟨rfl, ?_, ?_, ?_⟩
  · intro h
    simp [afterProbe, probeSize, h]
  · intro h
    simp [afterProbe, probeSize, h]
  · intro n h
    simp [afterProbe, probeSize, h]

/-- Witness for C8 on the unparsable header "12x". -/
theorem C8_probe_amended_witness :
    pyIntNat "12x" = none ∧ afterProbe (some "12x") = ProbeStep.abortException :=
  ⟨by decide, (C8_probe_amended "12x").2.1 (by decide)⟩

end Bot
